import Mathlib

/-!
Verification of the sandbox-coverage rule-attribution engine.

This file gives a shallow embedding of the matching-core programs
(`match_rules.cpp`, `matcher.cpp`, `rematch_inconsistent.cpp`,
`ruleset_helpers.cpp`, `sbpl_helpers.cpp`, `sandbox_utils/*`) and proves
properties of the embedded definitions.

Modelling conventions:
- nlohmann json rule objects are embedded as the structured `Rule` record
  (§3 / §6 of the design document give the JSON shape); structural equality
  of json values becomes decidable equality of `Rule`.
- The kernel sandbox oracle (`sandbox_check` behind `SANDBOX_CHECK_NO_REPORT`)
  is an external collaborator; it is passed as a function parameter
  `oracle : String → Nat → Option String → Int` taking the operation name,
  the raw filter-type value, and the optional argument.
- The operation table installed by simbple is external as well and is passed
  as an `OpTable` record of lookup functions.
- Process-level control flow (fork/waitpid/exit/assert) is embedded as
  `Option`: `none` models every path on which the call does not report
  success (worker signalled, worker exited non-zero, parent assertion).
-/

/-- Scalar json value appearing in filter arguments and modifier arguments
(`value` is a string or an integer in the rule-set JSON shape). -/
inductive FilterValue where
  | str (s : String)
  | num (n : Int)
deriving DecidableEq, Repr

/-- One filter argument: a `value` plus an optional `alias` field. -/
structure FilterArgument where
  value : FilterValue
  aliasName : Option String
deriving DecidableEq, Repr

/-- A rule filter: either a plain filter with arguments, or one of the
`require-all` / `require-any` / `require-not` combinators with nested
subfilters (distinguished by name in `dump_scheme_filter`). -/
inductive SBFilter where
  | plain (name : String) (arguments : List FilterArgument) : SBFilter
  | compound (name : String) (subfilters : List SBFilter) : SBFilter

mutual

def filterDecEq : (a b : SBFilter) → Decidable (a = b)
  | .plain n args, .plain n2 args2 =>
      match decEq n n2, decEq args args2 with
      | isTrue h1, isTrue h2 => isTrue (by rw [h1, h2])
      | isFalse h1, _ => isFalse (fun h => by cases h; exact h1 rfl)
      | _, isFalse h2 => isFalse (fun h => by cases h; exact h2 rfl)
  | .plain _ _, .compound _ _ => isFalse (fun h => SBFilter.noConfusion h)
  | .compound _ _, .plain _ _ => isFalse (fun h => SBFilter.noConfusion h)
  | .compound n subs, .compound n2 subs2 =>
      match decEq n n2, filterListDecEq subs subs2 with
      | isTrue h1, isTrue h2 => isTrue (by rw [h1, h2])
      | isFalse h1, _ => isFalse (fun h => by cases h; exact h1 rfl)
      | _, isFalse h2 => isFalse (fun h => by cases h; exact h2 rfl)

def filterListDecEq : (a b : List SBFilter) → Decidable (a = b)
  | [], [] => isTrue rfl
  | [], _ :: _ => isFalse (fun h => List.noConfusion h)
  | _ :: _, [] => isFalse (fun h => List.noConfusion h)
  | x :: xs, y :: ys =>
      match filterDecEq x y, filterListDecEq xs ys with
      | isTrue h1, isTrue h2 => isTrue (by rw [h1, h2])
      | isFalse h1, _ => isFalse (fun h => by cases h; exact h1 rfl)
      | _, isFalse h2 => isFalse (fun h => by cases h; exact h2 rfl)

end

instance : DecidableEq SBFilter := filterDecEq

/-- A rule modifier: a name with an optional typed argument. -/
structure Modifier where
  name : String
  argument : Option FilterValue
deriving DecidableEq, Repr

/-- A sandbox rule: action, ordered operation list, optional filters and
modifiers.  Two rules are equal iff their structured representation is
equal (json structural equality). -/
structure Rule where
  action : String
  operations : List String
  filters : List SBFilter
  modifiers : List Modifier
deriving DecidableEq

/-- A log entry: operation name, optional argument, observed action
(the `action` string is "allow" or "deny" in the event JSON shape). -/
structure Event where
  operation : String
  argument : Option String
  action : String
deriving DecidableEq

/-- Embedding of `enum decision` of the recheck probes.  The numeric values are used by
`Decision.toInt` below. -/
inductive Decision where
  | allow
  | deny
  | unknown
  | error
deriving DecidableEq, Repr

/-- Modelled from the spec: the header `decision.h` defining the numeric
values of `enum decision` is not among the sources; §4.5.1 fixes the decision
bytes allow=0x00, deny=0x01, unknown=0x03, error=0x04 (`DECISION_ALLOW = 0`
is also forced by `sandbox_check_sem_create` returning the literal `0`). -/
def Decision.toInt : Decision → Int
  | .allow => 0
  | .deny => 1
  | .unknown => 3
  | .error => 4

/-- Embedding of `enum sandbox_match_status` of match_rules.cpp:
`SANDBOX_INCONSISTENT = 0`, `SANDBOX_CONSISTENT = 1`, `SANDBOX_EXTERNAL = 2`. -/
inductive SandboxMatchStatus where
  | inconsistent
  | consistent
  | external
deriving DecidableEq, Repr

/-- Embedding of `enum sandbox_match_status` of matcher.cpp:
`MATCH_CONSISTENT`, `MATCH_INCONSISTENT`, `MATCH_UNKNOWN`. -/
inductive MatcherStatus where
  | consistent
  | inconsistent
  | unknown
deriving DecidableEq, Repr

/- ----------------------------------------------------------------- -/
/- C1 rule-set model: ruleset_helpers.cpp / the ruleset namespace of
   match_rules.cpp.                                                  -/
/- ----------------------------------------------------------------- -/

/-- Inner loop of `ruleset::get_default`: does any operation of the rule
equal `"default"`. -/
def rule_is_default (r : Rule) : Bool :=
  r.operations.any (fun op => op == "default")

/-- Embedding of `ruleset::get_default`: first rule whose operations contain
`"default"`; `none` models the `nullptr` return. -/
def get_default : List Rule → Option Rule
  | [] => none
  | r :: rs => if rule_is_default r then some r else get_default rs

/-- Embedding of `ruleset::index_for_rule`: linear scan returning the first index whose
rule equals `rule`; `none` models the `assert(false)` path taken when the
rule is absent. -/
def index_for_rule : List Rule → Rule → Option Nat
  | [], _ => none
  | r :: rs, rule => if r = rule then some 0 else (index_for_rule rs rule).map (· + 1)

/-- Embedding of `ruleset::remove_last_rule`: requires a non-empty rule base; returns the
copy of all rules but the last, the index `size - 1` written to
`last_rule_idx`, and the removed last rule written to `last_rule`. -/
def remove_last_rule (rulebase : List Rule) (h : rulebase ≠ []) :
    List Rule × Nat × Rule :=
  (rulebase.dropLast, rulebase.length - 1, rulebase.getLast h)

/-- Embedding of `ruleset::get_nth`: `rulebase[n]` (json array indexing). -/
def get_nth (rulebase : List Rule) (n : Nat) (h : n < rulebase.length) : Rule :=
  rulebase.get ⟨n, h⟩

/- ----------------------------------------------------------------- -/
/- C4 filter-type resolver.                                          -/
/- ----------------------------------------------------------------- -/

/-- Value `SANDBOX_FILTER_NONE` of `enum sandbox_filter_type`. -/
def SANDBOX_FILTER_NONE : Nat := 0

/-- Value `SANDBOX_FILTER_PATH` of `enum sandbox_filter_type`. -/
def SANDBOX_FILTER_PATH : Nat := 1

/-- Value `SANDBOX_FILTER_GLOBAL_NAME` of `enum sandbox_filter_type`. -/
def SANDBOX_FILTER_GLOBAL_NAME : Nat := 2

/-- Value `SANDBOX_FILTER_UNKNOWN` of `enum sandbox_filter_type` (custom value
appended after the nine concrete kernel filter categories). -/
def SANDBOX_FILTER_UNKNOWN : Nat := 10

/-- The loop `for (current_filter = SANDBOX_FILTER_PATH; current_filter !=
SANDBOX_FILTER_UNKNOWN; ++current_filter)`: the nine concrete filter
categories path(1), global-name(2), local-name(3),
appleevent-destination(4), right-name(5), preference-domain(6),
kext-bundle-id(7), info-type(8) and the ninth category (9). -/
def concrete_filter_types : List Nat := [1, 2, 3, 4, 5, 6, 7, 8, 9]

/-- Character-list core of `!strncmp(pre, s, strlen(pre))`: does the
second list appear at the start of the first. -/
def strncmp_eq : List Char → List Char → Bool
  | _, [] => true
  | [], _ :: _ => false
  | c :: cs, p :: ps => c == p && strncmp_eq cs ps

/-- Embedding of `!strncmp(pre, s, strlen(pre))`: the operation name `s` begins with
the literal `pre`. -/
def starts_with (s pre : String) : Bool := strncmp_eq s.data pre.data

/-- Embedding of `sandbox_filter_type_for_op` as defined (identically) in
match_rules.cpp and matcher.cpp: `strncmp` checks are embedded as
`starts_with`. -/
def sandbox_filter_type_for_op (operation : String) : Nat :=
  if starts_with operation "file" then SANDBOX_FILTER_PATH
  else if starts_with operation "mach-register" then SANDBOX_FILTER_GLOBAL_NAME
  else SANDBOX_FILTER_UNKNOWN

/-- Embedding of `sandbox_filter_type_for_op` as defined in rematch_inconsistent.cpp:
this copy has no `mach-register` case. -/
def sandbox_filter_type_for_op_rematcher (operation : String) : Nat :=
  if starts_with operation "file" then SANDBOX_FILTER_PATH
  else SANDBOX_FILTER_UNKNOWN

/-- Embedding of `get_argument` of matcher.cpp (match_rules.cpp inlines the same
lookup): the event's argument, or `""` when the key is absent. -/
def get_argument (log : Event) : String :=
  match log.argument with
  | none => ""
  | some a => a

/- ----------------------------------------------------------------- -/
/- Per-event probing strategies.                                     -/
/- ----------------------------------------------------------------- -/

/-- Embedding of `sandbox_check_custom` of match_rules.cpp (runs inside the C5 worker).
`oracle op filter arg` stands for
`sandbox_check(getpid(), op, SANDBOX_CHECK_NO_REPORT | filter, arg)`.
For an unknown filter type every concrete filter category is tried and the
result is allow (0) iff some category allowed; there is no branch on the
policy's default action and no unknown result. -/
def sandbox_check_custom (oracle : String → Nat → Option String → Int)
    (input : Event) : Int :=
  let operation := input.operation
  let filter_type := sandbox_filter_type_for_op operation
  let argument := get_argument input
  if argument ≠ "" then
    if filter_type = SANDBOX_FILTER_UNKNOWN then
      if concrete_filter_types.any
          (fun current_filter => oracle operation current_filter (some argument) == 0) then 0
      else 1
    else oracle operation filter_type (some argument)
  else oracle operation SANDBOX_FILTER_NONE none

/-- Embedding of the `is_consistent` lambda of matcher.cpp's main. -/
def is_consistent_matcher (d : Decision) (log : Event) : Bool :=
  (d == Decision.allow && log.action == "allow")
    || (d == Decision.deny && log.action == "deny")

/-- Embedding of `sandbox_check_custom` of matcher.cpp: same parameter choice as the
match_rules.cpp version, but on a default-allow policy with unknown filter
type it returns `DECISION_UNKNOWN`, and oracle returns outside {0, 1} are
reported as `DECISION_ERROR`. -/
def sandbox_check_custom_matcher (oracle : String → Nat → Option String → Int)
    (log : Event) (is_allow_default : Bool) : Decision :=
  let operation := log.operation
  let argument := get_argument log
  let filter_type := sandbox_filter_type_for_op operation
  if argument ≠ "" then
    if filter_type = SANDBOX_FILTER_UNKNOWN then
      if is_allow_default then Decision.unknown
      else if concrete_filter_types.any
          (fun current_filter => oracle operation current_filter (some argument) == 0) then
        Decision.allow
      else Decision.deny
    else
      let rv := oracle operation filter_type (some argument)
      if ¬(rv = 0 ∨ rv = 1) then Decision.error
      else if rv = 0 then Decision.allow else Decision.deny
  else
    let rv := oracle operation SANDBOX_FILTER_NONE none
    if ¬(rv = 0 ∨ rv = 1) then Decision.error
    else if rv = 0 then Decision.allow else Decision.deny

/- ----------------------------------------------------------------- -/
/- C5 isolated batch oracle: sandbox_check_bulk_for_profile.         -/
/- ----------------------------------------------------------------- -/

/-- The sentinel byte written by `memset(temp, 2, map_size)` into the
shared result buffer before the worker runs. -/
def SENTINEL : Int := 2

/-- The shared result buffer right after `memset(temp, 2, map_size)` and
before the fork: one sentinel byte per event. -/
def bulk_initial_buffer (n : Nat) : List Int :=
  List.replicate n SENTINEL

/-- The worker's write loop: `temp[i] = decision` for each event index in
order, starting from buffer state `buf`. -/
def write_decisions : List Int → Nat → List Int → List Int
  | [], _, buf => buf
  | d :: ds, i, buf => write_decisions ds (i + 1) (buf.set i d)

/-- Embedding of `sandbox_check_bulk_for_profile` of match_rules.cpp.

`install_ok` stands for `sandbox_initialize(profile) == 0` in the worker,
and `oracle` for the kernel oracle under the installed profile.  `none`
models every path on which the call does not report success: the worker
aborting on `assert(decision == 0 || decision == 1)` (parent sees
`WIFSIGNALED` and returns false) and the worker exiting non-zero after a
failed install (the parent's `assert(exit_status == 0)` fires). -/
def sandbox_check_bulk_for_profile (install_ok : Bool)
    (oracle : String → Nat → Option String → Int)
    (inputs : List Event) : Option (List Int) :=
  let temp := bulk_initial_buffer inputs.length
  if install_ok then
    let decisions := inputs.map (fun input => sandbox_check_custom oracle input)
    if decisions.all (fun d => d == 0 || d == 1) then
      some (write_decisions decisions 0 temp)
    else none
  else none

/- ----------------------------------------------------------------- -/
/- C7 attribution engine, phase B: the shrink loop of                 -/
/- sandbox_bulk_find_matching_rule (match_rules.cpp).                 -/
/- ----------------------------------------------------------------- -/

/-- The `while (true)` shrink loop of `sandbox_bulk_find_matching_rule`
(match_rules.cpp).  Per-event arrays are embedded as functions of the
event index: `ms i = none` is `RULE_UNMATCHED`, `consistent i` is
`consistent[i] == SANDBOX_CONSISTENT`, `check W i` is the decision the
batch oracle run on working set `W` yields for event `i` (`last_results`),
and `baselines i` is the baseline decision.  Each iteration removes the
last rule via `remove_last_rule`, records that rule's index (as produced
by `remove_last_rule`) for every consistent, still-unmatched event whose
decision changed, and stops once the working set is empty. -/
def shrink_loop (check : List Rule → Nat → Int) (baselines : Nat → Int)
    (consistent : Nat → Bool) :
    (current : List Rule) → (Nat → Option Nat) → Nat → Option Nat
  | [], ms => ms
  | c :: cs, ms =>
      let step := remove_last_rule (c :: cs) (by simp)
      let current' := step.1
      let rule_index := step.2.1
      let ms' := fun i =>
        if consistent i ∧ ms i = none ∧ check current' i ≠ baselines i then
          some rule_index
        else ms i
      if current' = [] then ms'
      else shrink_loop check baselines consistent current' ms'
  termination_by current => current.length
  decreasing_by
    simp only [remove_last_rule, List.length_dropLast, List.length_cons]
    omega

/- ----------------------------------------------------------------- -/
/- C7 attribution engine, phase C: default-deny fix-up.               -/
/- ----------------------------------------------------------------- -/

/-- Per-event body of the default-deny fix-up loop of
`sandbox_bulk_find_matching_rule` (match_rules.cpp): for a consistent,
unmatched event, a deny default rule together with a deny observation
attributes the event to `index_for_rule(profile, default_action)`;
otherwise the status becomes `SANDBOX_EXTERNAL`.  A missing default rule
(`get_default` returns null) makes `default_action["action"] == "deny"`
false and takes the external branch. -/
def phaseC_entry (profile : List Rule) (input : Event)
    (status : SandboxMatchStatus) (matched : Option Nat) :
    SandboxMatchStatus × Option Nat :=
  if status = SandboxMatchStatus.consistent ∧ matched = none then
    match get_default profile with
    | some default_action =>
        if default_action.action = "deny" ∧ input.action = "deny" then
          (status, index_for_rule profile default_action)
        else (SandboxMatchStatus.external, matched)
    | none => (SandboxMatchStatus.external, matched)
  else (status, matched)

/-- The default-deny fix-up of `sandbox_bulk_find_matching_rule` in
rematch_inconsistent.cpp: it runs only under `default_action["action"] ==
"deny"` and only assigns deny events; there is no external branch and the
consistency array is never modified. -/
def phaseC_rematcher (profile : List Rule) (inputs : Nat → Event)
    (consistent : Nat → Bool) (ms : Nat → Option Nat) :
    Nat → Option Nat :=
  match get_default profile with
  | some default_action =>
      if default_action.action = "deny" then
        fun i =>
          if consistent i ∧ ms i = none ∧ (inputs i).action = "deny" then
            index_for_rule profile default_action
          else ms i
      else ms
  | none => ms

/-- The sanity-check assertion after the fix-up in rematch_inconsistent.cpp:
every event is either consistent and matched, or inconsistent and
unmatched. -/
def rematcher_sanity (consistent : Nat → Bool) (ms : Nat → Option Nat)
    (n : Nat) : Bool :=
  (List.range n).all fun i =>
    (consistent i && (ms i).isSome) || (!consistent i && (ms i).isNone)

/- ----------------------------------------------------------------- -/
/- C3 operation taxonomy: sbpl::relevant_operations.                 -/
/- ----------------------------------------------------------------- -/

/-- The fields of `operation_info_t` used by `sbpl::relevant_operations`:
whether `node_type == TERMINAL_NODE`, and the fallback operation index. -/
structure OpInfo where
  terminal_node : Bool
  fallback_op : Nat
deriving DecidableEq, Repr

/-- The external operation table installed by simbple
(`operations_install`); `info_for_name` is `operation_info_for_name`,
`info_for_idx` is `operation_info_for_idx`, `name_for_idx` is
`operation_name_for_idx`, and `num_ops` is the number of table entries.
`operation_idx_for_operation_info (operation_info_for_idx k) = k` holds by
array pointer arithmetic in C and is used to fuse the two calls. -/
structure OpTable where
  num_ops : Nat
  info_for_name : String → OpInfo
  info_for_idx : Nat → OpInfo
  name_for_idx : Nat → String

/-- The `while (true)` walk of `sbpl::relevant_operations`: follow the
fallback index, insert the operation name reached, and stop as soon as an
insertion fails because the name is already in the result set.  The fuel
argument only bounds the recursion; `relevant_operations` supplies
`num_ops + 1`, which can never be exhausted because every continuing
iteration inserts a fresh name drawn from the at most `num_ops` table
names. -/
def rel_ops_loop (t : OpTable) : Nat → OpInfo → List String → List String
  | 0, _, result => result
  | Nat.succ fuel, op_info, result =>
      let idx := op_info.fallback_op
      let op_info2 := t.info_for_idx idx
      let op_name := t.name_for_idx idx
      if op_name ∈ result then result
      else rel_ops_loop t fuel op_info2 (result ++ [op_name])

/-- Embedding of `sbpl::relevant_operations` (sbpl_helpers.cpp, duplicated in
match_rules.cpp): start with {op}; a terminal node returns immediately;
otherwise walk the fallback chain. -/
def relevant_operations (t : OpTable) (op : String) : List String :=
  let result := [op]
  let op_info := t.info_for_name op
  if op_info.terminal_node then result
  else rel_ops_loop t (t.num_ops + 1) op_info result

/-- Index reached by the first fallback step from `op`. -/
def fallback_idx1 (t : OpTable) (op : String) : Nat :=
  (t.info_for_name op).fallback_op

/-- Name reached by the first fallback step from `op`. -/
def fallback_name1 (t : OpTable) (op : String) : String :=
  t.name_for_idx (fallback_idx1 t op)

/-- Index reached by the second fallback step from `op`. -/
def fallback_idx2 (t : OpTable) (op : String) : Nat :=
  (t.info_for_idx (fallback_idx1 t op)).fallback_op

/-- Name reached by the second fallback step from `op`. -/
def fallback_name2 (t : OpTable) (op : String) : String :=
  t.name_for_idx (fallback_idx2 t op)

/- ----------------------------------------------------------------- -/
/- C6 recheck oracle: sandbox_utils.                                  -/
/- ----------------------------------------------------------------- -/

/-- Embedding of `sandbox_check_sem_open` (sandbox_utils/posix_sem.c): the stub marked
`STUB: TODO`, returning `DECISION_ERROR` for every name. -/
def sandbox_check_sem_open (_name : String) : Decision :=
  Decision.error

/-- The system-state-dependent active probes of the `check_functions`
table (sandbox_utils.c).  Each field stands for the observed outcome of
actually performing the operation; they are parameters of the embedding
because their results depend on the installed sandbox and on system
state.  `sandbox_check_sem_open` is not a field: it is the pure stub
defined above. -/
structure ProbeEnv where
  file_issue_extension : String → Decision
  shm_write_create : String → Decision
  shm_write_data : String → Decision
  shm_write_unlink : String → Decision
  shm_read_data : String → Decision
  shm_read_metadata : String → Decision
  sem_create : String → Decision
  sem_post : String → Decision
  sem_wait : String → Decision
  sem_unlink : String → Decision
  nvram_get : String → Decision
  dirtycontrol : Nat → Decision
  setcontrol : Nat → Decision
  pidinfo : Nat → Decision
  signal_probe : String → Decision
  iokit_open : String → Decision
  mach_register : String → Decision

/-- The `check_functions` table of sandbox_utils.c: operation name paired
with the probe to run (pid-typed probes ignore the string argument and
vice versa, mirroring `check_function_type`). -/
def check_functions (env : ProbeEnv) : List (String × (Nat → String → Decision)) :=
  [ ("file-issue-extension", fun _ arg => env.file_issue_extension arg),
    ("ipc-posix-shm-write-create", fun _ arg => env.shm_write_create arg),
    ("ipc-posix-shm-write-data", fun _ arg => env.shm_write_data arg),
    ("ipc-posix-shm-write-unlink", fun _ arg => env.shm_write_unlink arg),
    ("ipc-posix-shm-read-data", fun _ arg => env.shm_read_data arg),
    ("ipc-posix-shm-read-metadata", fun _ arg => env.shm_read_metadata arg),
    ("ipc-posix-sem-create", fun _ arg => env.sem_create arg),
    ("ipc-posix-sem-open", fun _ arg => sandbox_check_sem_open arg),
    ("ipc-posix-sem-post", fun _ arg => env.sem_post arg),
    ("ipc-posix-sem-wait", fun _ arg => env.sem_wait arg),
    ("ipc-posix-sem-unlink", fun _ arg => env.sem_unlink arg),
    ("nvram-get", fun _ arg => env.nvram_get arg),
    ("process-info-dirtycontrol", fun pid _ => env.dirtycontrol pid),
    ("process-info-setcontrol", fun pid _ => env.setcontrol pid),
    ("process-info-pidinfo", fun pid _ => env.pidinfo pid),
    ("signal", fun _ arg => env.signal_probe arg),
    ("iokit-open", fun _ arg => env.iokit_open arg),
    ("mach-register", fun _ arg => env.mach_register arg) ]

/-- Embedding of `sandbox_check_perform` (sandbox_utils.c): linear search of
`check_functions` for the operation; a hit runs the probe (the enum result
is returned as an int), a miss returns -1. -/
def sandbox_check_perform (env : ProbeEnv) (pid : Nat) (operation : String)
    (argument : String) : Int :=
  match (check_functions env).find? (fun current => current.1 == operation) with
  | some current => (current.2 pid argument).toInt
  | none => -1

/-- The json-level `sandbox_check_perform` wrapper of matcher.cpp: passes
the event's operation and argument (type argument 0 is ignored). -/
def sandbox_check_perform_log (env : ProbeEnv) (pid : Nat) (log : Event) : Int :=
  sandbox_check_perform env pid log.operation (get_argument log)

/- ----------------------------------------------------------------- -/
/- matcher.cpp / rematch_inconsistent.cpp drivers.                   -/
/- ----------------------------------------------------------------- -/

/-- Embedding of `should_recheck` of matcher.cpp, as written: the comparison is against
`"mach_register"` with an underscore. -/
def should_recheck (log : Event) : Bool :=
  log.operation == "mach_register"

/-- Embedding of `should_rematch` of rematch_inconsistent.cpp.  `match_value` is
`match_entry[1]`, the second element of an attribution output pair: a rule
index (`Sum.inl`) or the string `"inconsistent"` / `"external"`
(`Sum.inr`); `is_number` is true exactly on `Sum.inl`. -/
def should_rematch (match_value : Nat ⊕ String) (log_entry : Event) : Bool :=
  if !(match_value.isLeft) then true
  else if log_entry.operation == "mach-register" then true
  else false

/-- One iteration of the batch-processing loop in matcher.cpp's `main`:
kernel query via `sandbox_check_custom`, early exit (`none`) on
`DECISION_ERROR`, consistent-and-no-recheck short cut, otherwise the
active probe with fall-backs as in the source.  The probe result is the
raw int of `sandbox_check_perform` compared against the decision bytes. -/
def process_log (oracle : String → Nat → Option String → Int) (env : ProbeEnv)
    (pid : Nat) (is_allow_default : Bool) (log : Event) : Option MatcherStatus :=
  let decision := sandbox_check_custom_matcher oracle log is_allow_default
  if decision = Decision.error then none
  else if is_consistent_matcher decision log && !(should_recheck log) then
    some MatcherStatus.consistent
  else
    let performed_decision := sandbox_check_perform_log env pid log
    if performed_decision = Decision.error.toInt then none
    else if performed_decision = Decision.unknown.toInt then
      if decision = Decision.unknown then some MatcherStatus.unknown
      else if is_consistent_matcher decision log then some MatcherStatus.consistent
      else some MatcherStatus.inconsistent
    else
      if (performed_decision = Decision.allow.toInt && log.action == "allow")
          || (performed_decision = Decision.deny.toInt && log.action == "deny") then
        some MatcherStatus.consistent
      else some MatcherStatus.inconsistent

/- ----------------------------------------------------------------- -/
/- Concrete fixtures used by witnesses and counterexamples.          -/
/- ----------------------------------------------------------------- -/

/-- A default-deny rule `(deny default)`. -/
def ruleDefaultDeny : Rule := ⟨"deny", ["default"], [], []⟩

/-- An allow rule `(allow file-read-data (subpath "/etc"))`. -/
def ruleAllowEtc : Rule :=
  ⟨"allow", ["file-read-data"], [SBFilter.plain "subpath" [⟨FilterValue.str "/etc", none⟩]], []⟩

/-- Kernel oracle that allows every query (the observable behaviour of a
default-allow policy, for which `sandbox_check` returns 0 on basically any
filter type, as the source comments note). -/
def oracleAllowAll : String → Nat → Option String → Int := fun _ _ _ => 0

/-- Kernel oracle that denies every query. -/
def oracleDenyAll : String → Nat → Option String → Int := fun _ _ _ => 1

/-- A probe environment in which every active probe observes `d`. -/
def probeEnvConst (d : Decision) : ProbeEnv :=
  ⟨fun _ => d, fun _ => d, fun _ => d, fun _ => d, fun _ => d, fun _ => d,
   fun _ => d, fun _ => d, fun _ => d, fun _ => d, fun _ => d, fun _ => d,
   fun _ => d, fun _ => d, fun _ => d, fun _ => d, fun _ => d⟩

/-- Event with an argument whose operation has no known filter type. -/
def sysctlDenyEvent : Event := ⟨"sysctl-read", some "kern.version", "deny"⟩

/-- Allowed event explained only by a platform-intrinsic rule
(`file-map-executable` is default-allow in the kernel taxonomy). -/
def extAllowEvent : Event := ⟨"file-map-executable", some "/usr/lib/libobjc.dylib", "allow"⟩

/-- A mach-register event (hyphenated operation name, as in real logs). -/
def machRegisterLog : Event := ⟨"mach-register", some "com.apple.x", "allow"⟩

/-- An nvram-get event (argument present, filter type unknown, probe
available in `check_functions`). -/
def nvramAllowEvent : Event := ⟨"nvram-get", some "boot-args", "allow"⟩

/-- An event without argument. -/
def noArgEvent : Event := ⟨"sysctl-read", none, "allow"⟩

/-- A denied file event (attributable to the default-deny rule). -/
def fileDenyEvent : Event := ⟨"file-read-data", some "/var/log/secret", "deny"⟩

/- ----------------------------------------------------------------- -/
/- C8: remove_last_rule.                                             -/
/- ----------------------------------------------------------------- -/

/-- C8: on a non-empty rule set S, `remove_last_rule` returns S' equal to
S with exactly its last rule removed and all earlier rules unchanged in
order, the removed rule r = S[|S|-1], and the index |S|-1; the embedding
is a pure function, so the input rule set is not mutated and the result is
a fresh value. -/
theorem remove_last_rule_spec (S : List Rule) (h : S ≠ []) :
    (remove_last_rule S h).1.length = S.length - 1 ∧
    (∀ j, j < S.length - 1 → (remove_last_rule S h).1[j]? = S[j]?) ∧
    (remove_last_rule S h).1 ++ [(remove_last_rule S h).2.2] = S ∧
    (remove_last_rule S h).2.1 = S.length - 1 ∧
    S[S.length - 1]? = some (remove_last_rule S h).2.2 := by
  refine ⟨by simp [remove_last_rule], ?_, ?_, rfl, ?_⟩
  · intro j hj
    simp only [remove_last_rule]
    rw [List.dropLast_eq_take]
    exact List.getElem?_take_of_lt hj
  · simp [remove_last_rule, List.dropLast_append_getLast]
  · have hl : S.length - 1 < S.length := by
      have := List.length_pos.mpr h; omega
    rw [List.getElem?_eq_getElem hl]
    simp only [remove_last_rule, Option.some_inj]
    exact (List.getLast_eq_getElem S h).symm

/-- Witness for `remove_last_rule_spec` at a concrete two-rule set. -/
theorem remove_last_rule_spec_witness :
    (([ruleDefaultDeny, ruleAllowEtc] : List Rule) ≠ []) ∧
    (remove_last_rule [ruleDefaultDeny, ruleAllowEtc] (by decide)).1 ++
        [(remove_last_rule [ruleDefaultDeny, ruleAllowEtc] (by decide)).2.2]
      = [ruleDefaultDeny, ruleAllowEtc] :=
  ⟨by decide, (remove_last_rule_spec [ruleDefaultDeny, ruleAllowEtc] (by decide)).2.2.1⟩

/- ----------------------------------------------------------------- -/
/- C9: the ipc-posix-sem-open active probe.                          -/
/- ----------------------------------------------------------------- -/

/-- C9: for every name argument, the active probe for `ipc-posix-sem-open`
returns the error decision — both directly (`sandbox_check_sem_open` is
the stub returning `DECISION_ERROR`) and through the `check_functions`
dispatch of `sandbox_check_perform` — and never allow, deny or unknown. -/
theorem sem_open_probe_returns_error :
    ∀ (env : ProbeEnv) (pid : Nat) (name : String),
      sandbox_check_sem_open name = Decision.error ∧
      sandbox_check_perform env pid "ipc-posix-sem-open" name = Decision.error.toInt ∧
      sandbox_check_sem_open name ≠ Decision.allow ∧
      sandbox_check_sem_open name ≠ Decision.deny ∧
      sandbox_check_sem_open name ≠ Decision.unknown := by
  intro env pid name
  exact ⟨rfl, rfl, by simp [sandbox_check_sem_open],
    by simp [sandbox_check_sem_open], by simp [sandbox_check_sem_open]⟩

/- ----------------------------------------------------------------- -/
/- C7: the must-recheck predicate for mach-register.                 -/
/- ----------------------------------------------------------------- -/

/-- C7: evaluation at the failing input.  `should_recheck` of matcher.cpp
compares the operation against `"mach_register"` (underscore), so it is
false on a real `mach-register` event; consequently, whenever the kernel
query already matches the observed action the consistency tool emits
`MATCH_CONSISTENT` without ever consulting the active probe — the result
is the same under a probe environment that would answer deny and under one
that would answer unknown.  The predicate does hold on the literal
operation string "mach_register", confirming which spelling is compared.
The rematcher driver's `should_rematch`, by contrast, does select every
`mach-register` event. -/
theorem should_recheck_misses_mach_register :
    should_recheck machRegisterLog = false ∧
    should_recheck ⟨"mach_register", some "com.apple.x", "allow"⟩ = true ∧
    should_rematch (Sum.inl 5) machRegisterLog = true ∧
    should_rematch (Sum.inr "inconsistent") machRegisterLog = true ∧
    process_log oracleAllowAll (probeEnvConst Decision.deny) 0 false machRegisterLog
      = some MatcherStatus.consistent ∧
    process_log oracleAllowAll (probeEnvConst Decision.unknown) 0 false machRegisterLog
      = some MatcherStatus.consistent := by
  exact ⟨rfl, rfl, rfl, rfl, rfl, rfl⟩

/- ----------------------------------------------------------------- -/
/- C2: the default-deny fix-up.                                      -/
/- ----------------------------------------------------------------- -/

/-- C2: evaluation at the failing input.  On a default-deny policy with a
consistent, still-unmatched allow event (the platform-intrinsic
`file-map-executable` case the sources document), the fix-up of
match_rules.cpp marks the event external, but the fix-up of
rematch_inconsistent.cpp leaves it unmatched and untouched — it has no
external branch and never modifies the consistency array — so the
rematcher's own sanity assertion (consistent iff matched) fails.  On the
deny-default / deny-event side both tools agree, attributing the event to
the default rule's index. -/
theorem rematcher_fixup_drops_external_case :
    phaseC_entry [ruleDefaultDeny] extAllowEvent SandboxMatchStatus.consistent none
      = (SandboxMatchStatus.external, none) ∧
    phaseC_rematcher [ruleDefaultDeny] (fun _ => extAllowEvent)
        (fun _ => true) (fun _ => none) 0 = none ∧
    rematcher_sanity (fun _ => true)
        (phaseC_rematcher [ruleDefaultDeny] (fun _ => extAllowEvent)
          (fun _ => true) (fun _ => none)) 1 = false ∧
    phaseC_entry [ruleDefaultDeny] fileDenyEvent SandboxMatchStatus.consistent none
      = (SandboxMatchStatus.consistent, some 0) ∧
    phaseC_rematcher [ruleDefaultDeny] (fun _ => fileDenyEvent)
        (fun _ => true) (fun _ => none) 0 = some 0 := by
  exact ⟨rfl, rfl, rfl, rfl, rfl⟩

/- ----------------------------------------------------------------- -/
/- C5: the filter-type resolver.                                     -/
/- ----------------------------------------------------------------- -/

/-- C5 counterexample: the rematcher's copy of the resolver has no
mach-register case, so it returns `SANDBOX_FILTER_UNKNOWN` — not
`SANDBOX_FILTER_GLOBAL_NAME` — for the operation `mach-register` on which
the claim demands global-name. -/
theorem rematcher_resolver_misses_mach_register :
    sandbox_filter_type_for_op_rematcher "mach-register" = SANDBOX_FILTER_UNKNOWN ∧
    sandbox_filter_type_for_op "mach-register" = SANDBOX_FILTER_GLOBAL_NAME ∧
    SANDBOX_FILTER_UNKNOWN ≠ SANDBOX_FILTER_GLOBAL_NAME := by
  exact ⟨rfl, rfl, by decide⟩

/-- C5 as amended: the resolver shared by match_rules.cpp and matcher.cpp
returns path for names beginning with "file", global-name for names
beginning with "mach-register" and unknown otherwise; the rematcher's copy
lacks the mach-register case and returns unknown for every non-file name;
and the category none is not produced by the resolver but selected by the
per-event check whenever the event's argument is empty, taking precedence
over the name-based rules. -/
theorem filter_type_resolver_amended :
    (∀ op : String, starts_with op "file" = true →
        sandbox_filter_type_for_op op = SANDBOX_FILTER_PATH ∧
        sandbox_filter_type_for_op_rematcher op = SANDBOX_FILTER_PATH) ∧
    (∀ op : String, starts_with op "file" = false →
        starts_with op "mach-register" = true →
        sandbox_filter_type_for_op op = SANDBOX_FILTER_GLOBAL_NAME ∧
        sandbox_filter_type_for_op_rematcher op = SANDBOX_FILTER_UNKNOWN) ∧
    (∀ op : String, starts_with op "file" = false →
        starts_with op "mach-register" = false →
        sandbox_filter_type_for_op op = SANDBOX_FILTER_UNKNOWN ∧
        sandbox_filter_type_for_op_rematcher op = SANDBOX_FILTER_UNKNOWN) ∧
    (∀ (oracle : String → Nat → Option String → Int) (log : Event),
        get_argument log = "" →
        sandbox_check_custom oracle log = oracle log.operation SANDBOX_FILTER_NONE none) := by
  refine ⟨?_, ?_, ?_, ?_⟩
  · intro op hf
    simp [sandbox_filter_type_for_op, sandbox_filter_type_for_op_rematcher, hf]
  · intro op hf hm
    simp [sandbox_filter_type_for_op, sandbox_filter_type_for_op_rematcher, hf, hm]
  · intro op hf hm
    simp [sandbox_filter_type_for_op, sandbox_filter_type_for_op_rematcher, hf, hm]
  · intro oracle log ha
    simp [sandbox_check_custom, ha]

/-- Witness for `filter_type_resolver_amended`: mach-register resolves to
global-name in the shared resolver and unknown in the rematcher's, and an
event without argument is checked with filter category none even though
its operation name begins with "file". -/
theorem filter_type_resolver_amended_witness :
    (sandbox_filter_type_for_op "mach-register" = SANDBOX_FILTER_GLOBAL_NAME ∧
      sandbox_filter_type_for_op_rematcher "mach-register" = SANDBOX_FILTER_UNKNOWN) ∧
    sandbox_check_custom oracleDenyAll ⟨"file-read-data", none, "allow"⟩
      = oracleDenyAll "file-read-data" SANDBOX_FILTER_NONE none :=
  ⟨filter_type_resolver_amended.2.1 "mach-register" (by decide) (by decide),
   filter_type_resolver_amended.2.2.2 oracleDenyAll ⟨"file-read-data", none, "allow"⟩ rfl⟩

/- ----------------------------------------------------------------- -/
/- C6: relevant_operations.                                          -/
/- ----------------------------------------------------------------- -/

/-- Example operation table: `opA` (index 0) is a non-terminal whose
fallback is index 1; `opB` (index 1) is a terminal whose fallback is
index 2; `opC` (index 2) is a terminal whose fallback is itself. -/
def opTableExample : OpTable where
  num_ops := 3
  info_for_name := fun s => if s == "opA" then ⟨false, 1⟩ else ⟨true, 2⟩
  info_for_idx := fun _ => ⟨true, 2⟩
  name_for_idx := fun k => if k == 1 then "opB" else "opC"

/-- C6 counterexample: starting from the non-terminal `opA`, the walk
reaches the terminal node `opB` but does not stop there — it keeps
following the fallback chain and also adds `opC`, stopping only when
`opC` is reached a second time.  Under the claim's construction ("until
another terminal is reached") the result would have been just
`[opA, opB]`. -/
theorem relevant_operations_passes_terminal :
    relevant_operations opTableExample "opA" = ["opA", "opB", "opC"] ∧
    (opTableExample.info_for_idx (fallback_idx1 opTableExample "opA")).terminal_node = true ∧
    fallback_name1 opTableExample "opA" = "opB" ∧
    fallback_name2 opTableExample "opA" = "opC" ∧
    ("opC" ∈ (["opA", "opB"] : List String)) = False := by
  refine ⟨rfl, rfl, rfl, rfl, by simp⟩

/-- Monotonicity of the walk: every name already inserted stays in the
result. -/
theorem mem_rel_ops_loop (t : OpTable) (a : String) :
    ∀ (fuel : Nat) (info : OpInfo) (result : List String),
      a ∈ result → a ∈ rel_ops_loop t fuel info result := by
  intro fuel
  induction fuel with
  | zero => intro info result h; simpa [rel_ops_loop] using h
  | succ fuel ih =>
      intro info result h
      simp only [rel_ops_loop]
      split
      · exact h
      · exact ih _ _ (List.mem_append_left _ h)

/-- C6 as amended: Rel(op) starts with {op} and stops immediately when op
is a terminal node; otherwise it iteratively walks the fallback chain
adding each encountered name, stopping only when a name is revisited (the
cycle guard) — in particular, reaching a terminal node during the walk
does not stop the construction: whenever the first two fallback steps
yield fresh names, both are added, with no condition on whether the first
step landed on a terminal node. -/
theorem relevant_operations_amended :
    (∀ (t : OpTable) (op : String),
        (t.info_for_name op).terminal_node = true →
        relevant_operations t op = [op]) ∧
    (∀ (t : OpTable) (op : String),
        (t.info_for_name op).terminal_node = false →
        1 ≤ t.num_ops →
        fallback_name1 t op ≠ op →
        fallback_name2 t op ≠ op →
        fallback_name2 t op ≠ fallback_name1 t op →
        fallback_name1 t op ∈ relevant_operations t op ∧
        fallback_name2 t op ∈ relevant_operations t op) := by
  constructor
  · intro t op hterm
    simp [relevant_operations, hterm]
  · intro t op hterm hnum h1 h2 h3
    have hm : t.num_ops + 1 = (t.num_ops - 1) + 1 + 1 := by omega
    simp only [relevant_operations, hterm, Bool.false_eq_true, if_false, hm]
    simp only [rel_ops_loop, List.mem_singleton]
    have e1 : t.name_for_idx (t.info_for_name op).fallback_op = fallback_name1 t op := rfl
    have e2 : t.name_for_idx (t.info_for_idx (t.info_for_name op).fallback_op).fallback_op
        = fallback_name2 t op := rfl
    rw [e1, e2, if_neg h1, if_neg (by simp [h2, h3])]
    refine ⟨mem_rel_ops_loop _ _ _ _ _ (by simp), mem_rel_ops_loop _ _ _ _ _ (by simp)⟩

/-- Witness for `relevant_operations_amended` on the example table: `opB`
is terminal so Rel(opB) = [opB]; from the non-terminal `opA` both fallback
names are added. -/
theorem relevant_operations_amended_witness :
    relevant_operations opTableExample "opB" = ["opB"] ∧
    fallback_name1 opTableExample "opA" ∈ relevant_operations opTableExample "opA" ∧
    fallback_name2 opTableExample "opA" ∈ relevant_operations opTableExample "opA" :=
  ⟨relevant_operations_amended.1 opTableExample "opB" rfl,
   (relevant_operations_amended.2 opTableExample "opA" rfl (by decide)
      (by decide) (by decide) (by decide)).1,
   (relevant_operations_amended.2 opTableExample "opA" rfl (by decide)
      (by decide) (by decide) (by decide)).2⟩

/- ----------------------------------------------------------------- -/
/- C3: the unknown-filter-type probing strategy.                     -/
/- ----------------------------------------------------------------- -/

/-- C3 counterexample: the attribution tool's per-event check
(`sandbox_check_custom` of match_rules.cpp) takes no account of the active
policy's default action.  On an event with non-empty argument and unknown
filter type it performs the filter-category sweep unconditionally: under
the allow-everything oracle — the observable behaviour of a default-allow
policy — it returns 0 (allow) rather than an unknown result, and its
return values are always 0 or 1. -/
theorem bulk_check_ignores_default_allow :
    sandbox_filter_type_for_op "sysctl-read" = SANDBOX_FILTER_UNKNOWN ∧
    sandbox_check_custom oracleAllowAll sysctlDenyEvent = 0 ∧
    sandbox_check_custom oracleDenyAll sysctlDenyEvent = 1 ∧
    sandbox_check_custom_matcher oracleAllowAll sysctlDenyEvent true = Decision.unknown := by
  exact ⟨rfl, rfl, rfl, rfl⟩

/-- C3 as amended: for every event with a non-empty argument whose
operation resolves to filter type unknown, the consistency tool's check
(`sandbox_check_custom` of matcher.cpp) returns unknown when the active
policy is default-allow and otherwise queries the oracle once per concrete
filter category, returning allow exactly when some category allows and
deny otherwise; the attribution tool's check (`sandbox_check_custom` of
match_rules.cpp) performs the same sweep unconditionally — regardless of
the policy's default action — and never returns an unknown result. -/
theorem unknown_filter_probe_amended :
    ∀ (oracle : String → Nat → Option String → Int) (log : Event),
      get_argument log ≠ "" →
      sandbox_filter_type_for_op log.operation = SANDBOX_FILTER_UNKNOWN →
      sandbox_check_custom_matcher oracle log true = Decision.unknown ∧
      (sandbox_check_custom_matcher oracle log false = Decision.allow ↔
        ∃ f ∈ concrete_filter_types, oracle log.operation f (some (get_argument log)) = 0) ∧
      (sandbox_check_custom_matcher oracle log false = Decision.allow ∨
        sandbox_check_custom_matcher oracle log false = Decision.deny) ∧
      (sandbox_check_custom oracle log = 0 ↔
        ∃ f ∈ concrete_filter_types, oracle log.operation f (some (get_argument log)) = 0) ∧
      (sandbox_check_custom oracle log = 0 ∨ sandbox_check_custom oracle log = 1) := by
  intro oracle log harg hft
  have hany := List.any_eq_true (l := concrete_filter_types)
    (p := fun current_filter => oracle log.operation current_filter (some (get_argument log)) == 0)
  constructor
  · simp [sandbox_check_custom_matcher, harg, hft]
  constructor
  · constructor
    · intro h
      by_cases hc : concrete_filter_types.any
          (fun current_filter => oracle log.operation current_filter (some (get_argument log)) == 0) = true
      · obtain ⟨f, hf, hf0⟩ := hany.mp hc
        exact ⟨f, hf, by simpa using hf0⟩
      · simp [sandbox_check_custom_matcher, harg, hft, hc] at h
    · intro ⟨f, hf, hf0⟩
      have : concrete_filter_types.any
          (fun current_filter => oracle log.operation current_filter (some (get_argument log)) == 0) = true :=
        hany.mpr ⟨f, hf, by simpa using hf0⟩
      simp [sandbox_check_custom_matcher, harg, hft, this]
  constructor
  · by_cases hc : concrete_filter_types.any
        (fun current_filter => oracle log.operation current_filter (some (get_argument log)) == 0) = true
    · left; simp [sandbox_check_custom_matcher, harg, hft, hc]
    · right; simp [sandbox_check_custom_matcher, harg, hft, hc]
  constructor
  · constructor
    · intro h
      by_cases hc : concrete_filter_types.any
          (fun current_filter => oracle log.operation current_filter (some (get_argument log)) == 0) = true
      · obtain ⟨f, hf, hf0⟩ := hany.mp hc
        exact ⟨f, hf, by simpa using hf0⟩
      · simp [sandbox_check_custom, harg, hft, hc] at h
    · intro ⟨f, hf, hf0⟩
      have : concrete_filter_types.any
          (fun current_filter => oracle log.operation current_filter (some (get_argument log)) == 0) = true :=
        hany.mpr ⟨f, hf, by simpa using hf0⟩
      simp [sandbox_check_custom, harg, hft, this]
  · by_cases hc : concrete_filter_types.any
        (fun current_filter => oracle log.operation current_filter (some (get_argument log)) == 0) = true
    · left; simp [sandbox_check_custom, harg, hft, hc]
    · right; simp [sandbox_check_custom, harg, hft, hc]

/-- Witness for `unknown_filter_probe_amended` at a concrete unknown-type
event under the deny-everything oracle. -/
theorem unknown_filter_probe_amended_witness :
    get_argument sysctlDenyEvent ≠ "" ∧
    sandbox_check_custom_matcher oracleDenyAll sysctlDenyEvent true = Decision.unknown ∧
    (sandbox_check_custom oracleDenyAll sysctlDenyEvent = 0 ∨
      sandbox_check_custom oracleDenyAll sysctlDenyEvent = 1) :=
  ⟨by decide,
   (unknown_filter_probe_amended oracleDenyAll sysctlDenyEvent (by decide) rfl).1,
   (unknown_filter_probe_amended oracleDenyAll sysctlDenyEvent (by decide) rfl).2.2.2.2⟩

/- ----------------------------------------------------------------- -/
/- C4: the isolated batch oracle.                                    -/
/- ----------------------------------------------------------------- -/

/-- Writing at shifted indices commutes with an untouched head cell. -/
theorem write_decisions_cons (ds : List Int) :
    ∀ (i : Nat) (b : Int) (buf : List Int),
      write_decisions ds (i + 1) (b :: buf) = b :: write_decisions ds i buf := by
  induction ds with
  | nil => intro i b buf; rfl
  | cons d ds ih =>
      intro i b buf
      simp only [write_decisions, List.set_cons_succ]
      exact ih (i + 1) b (buf.set i d)

/-- The worker's write loop overwrites a buffer of matching length with
exactly the decision list. -/
theorem write_decisions_eq (ds : List Int) :
    ∀ (buf : List Int), buf.length = ds.length → write_decisions ds 0 buf = ds := by
  induction ds with
  | nil =>
      intro buf h
      cases buf
      · rfl
      · simp at h
  | cons d ds ih =>
      intro buf h
      cases buf with
      | nil => simp at h
      | cons b bs =>
          simp only [write_decisions, List.set_cons_zero, write_decisions_cons]
          exact congrArg (d :: ·) (ih bs (by simpa using h))

/-- C4: the shared result buffer is pre-filled with the sentinel byte 0x02
before the worker runs, and whenever `sandbox_check_bulk_for_profile`
reports success the returned decision vector has one entry per event and
every entry differs from the sentinel — it is a real decision, 0 (allow)
or 1 (deny), the fact enforced by the worker's
`assert(decision == 0 || decision == 1)`. -/
theorem bulk_success_no_sentinel (install_ok : Bool)
    (oracle : String → Nat → Option String → Int) (inputs : List Event)
    (res : List Int)
    (h : sandbox_check_bulk_for_profile install_ok oracle inputs = some res) :
    (∀ j, j < inputs.length → (bulk_initial_buffer inputs.length)[j]? = some SENTINEL) ∧
    res.length = inputs.length ∧
    (∀ j, j < res.length →
      res[j]? ≠ some SENTINEL ∧ (res[j]? = some 0 ∨ res[j]? = some 1)) := by
  have hpre : ∀ j, j < inputs.length →
      (bulk_initial_buffer inputs.length)[j]? = some SENTINEL := by
    intro j hj
    simp [bulk_initial_buffer, List.getElem?_replicate, hj]
  refine ⟨hpre, ?_⟩
  simp only [sandbox_check_bulk_for_profile] at h
  cases install_ok with
  | false => simp at h
  | true =>
      simp only [if_pos rfl] at h
      by_cases hall : (inputs.map (fun input => sandbox_check_custom oracle input)).all
          (fun d => d == 0 || d == 1) = true
      · rw [if_pos hall] at h
        have hres : res = inputs.map (fun input => sandbox_check_custom oracle input) := by
          have hlen : (bulk_initial_buffer inputs.length).length
              = (inputs.map (fun input => sandbox_check_custom oracle input)).length := by
            simp [bulk_initial_buffer]
          rw [write_decisions_eq _ _ hlen] at h
          exact (Option.some_inj.mp h).symm
        have hlen2 : res.length = inputs.length := by simp [hres]
        refine ⟨hlen2, ?_⟩
        intro j hj
        have hjm : j < (inputs.map (fun input => sandbox_check_custom oracle input)).length := by
          rw [← hres]; exact hj
        have hget : res[j]? = some (inputs.map (fun input => sandbox_check_custom oracle input))[j] := by
          rw [hres]; exact List.getElem?_eq_getElem hjm
        have hmem : (inputs.map (fun input => sandbox_check_custom oracle input))[j]
            ∈ inputs.map (fun input => sandbox_check_custom oracle input) := List.getElem_mem hjm
        have hprop := List.all_eq_true.mp hall _ hmem
        have hval : (inputs.map (fun input => sandbox_check_custom oracle input))[j] = 0 ∨
            (inputs.map (fun input => sandbox_check_custom oracle input))[j] = 1 := by
          simpa using hprop
        constructor
        · rw [hget]
          rcases hval with h0 | h1
          · rw [h0]; simp [SENTINEL]
          · rw [h1]; simp [SENTINEL]
        · rcases hval with h0 | h1
          · left; rw [hget, h0]
          · right; rw [hget, h1]
      · rw [if_neg hall] at h
        simp at h

/-- Witness for `bulk_success_no_sentinel`: a successful run on one
argument-less event under the allow-everything oracle. -/
theorem bulk_success_no_sentinel_witness :
    sandbox_check_bulk_for_profile true oracleAllowAll [noArgEvent] = some [0] ∧
    (∀ j, j < ([0] : List Int).length →
      (([0] : List Int))[j]? ≠ some SENTINEL ∧
      ((([0] : List Int))[j]? = some 0 ∨ (([0] : List Int))[j]? = some 1)) :=
  ⟨rfl, (bulk_success_no_sentinel true oracleAllowAll [noArgEvent] [0] rfl).2.2⟩

/- ----------------------------------------------------------------- -/
/- C10: the consistency tool's fallback when the probe is unknown.   -/
/- ----------------------------------------------------------------- -/

/-- C10: in matcher.cpp's batch loop, when the active probe runs and
returns unknown, the emitted result is null (`MATCH_UNKNOWN`) exactly when
the kernel-query decision was also unknown; when the kernel query produced
a definite allow or deny, the tool falls back to that kernel-query
decision, emitting consistent (true) or inconsistent (false) according to
whether it matches the observed action. -/
theorem matcher_unknown_probe_fallback
    (oracle : String → Nat → Option String → Int) (env : ProbeEnv) (pid : Nat)
    (flag : Bool) (log : Event)
    (hd : sandbox_check_custom_matcher oracle log flag ≠ Decision.error)
    (hpath : ¬(is_consistent_matcher (sandbox_check_custom_matcher oracle log flag) log = true ∧
        should_recheck log = false))
    (hperf : sandbox_check_perform_log env pid log = Decision.unknown.toInt) :
    ((process_log oracle env pid flag log = some MatcherStatus.unknown) ↔
      sandbox_check_custom_matcher oracle log flag = Decision.unknown) ∧
    ((sandbox_check_custom_matcher oracle log flag = Decision.allow ∨
        sandbox_check_custom_matcher oracle log flag = Decision.deny) →
      process_log oracle env pid flag log =
        some (if is_consistent_matcher (sandbox_check_custom_matcher oracle log flag) log
              then MatcherStatus.consistent else MatcherStatus.inconsistent)) := by
  have hb : (is_consistent_matcher (sandbox_check_custom_matcher oracle log flag) log
      && !(should_recheck log)) = false := by
    cases hicm : is_consistent_matcher (sandbox_check_custom_matcher oracle log flag) log <;>
      cases hsr : should_recheck log <;> simp_all
  have hplog : process_log oracle env pid flag log =
      (if sandbox_check_custom_matcher oracle log flag = Decision.unknown then
        some MatcherStatus.unknown
      else if is_consistent_matcher (sandbox_check_custom_matcher oracle log flag) log then
        some MatcherStatus.consistent
      else some MatcherStatus.inconsistent) := by
    simp only [process_log, if_neg hd, hb, Bool.false_eq_true, if_false, hperf]
    have h43 : ¬(Decision.unknown.toInt = Decision.error.toInt) := by decide
    rw [if_neg h43]
    simp
  constructor
  · rw [hplog]
    constructor
    · intro h
      by_cases hdu : sandbox_check_custom_matcher oracle log flag = Decision.unknown
      · exact hdu
      · rw [if_neg hdu] at h
        split at h <;> simp at h
    · intro h
      rw [if_pos h]
  · intro had
    have hdu : sandbox_check_custom_matcher oracle log flag ≠ Decision.unknown := by
      rcases had with h | h <;> rw [h] <;> simp
    rw [hplog, if_neg hdu]
    cases hicm : is_consistent_matcher (sandbox_check_custom_matcher oracle log flag) log <;>
      simp [hicm]

/-- Witness for `matcher_unknown_probe_fallback`: an nvram-get event whose
kernel query denies while the log says allow (so the probe path runs), in
a probe environment observing unknown; the emitted result is not null
because the kernel decision was definite. -/
theorem matcher_unknown_probe_fallback_witness :
    sandbox_check_perform_log (probeEnvConst Decision.unknown) 0 nvramAllowEvent
      = Decision.unknown.toInt ∧
    ((process_log oracleDenyAll (probeEnvConst Decision.unknown) 0 false nvramAllowEvent
        = some MatcherStatus.unknown) ↔
      sandbox_check_custom_matcher oracleDenyAll nvramAllowEvent false = Decision.unknown) :=
  ⟨rfl,
   (matcher_unknown_probe_fallback oracleDenyAll (probeEnvConst Decision.unknown) 0 false
      nvramAllowEvent (by decide) (by decide) rfl).1⟩

/- ----------------------------------------------------------------- -/
/- C1: phase-B attributions are indices into the original rule set.  -/
/- ----------------------------------------------------------------- -/

/-- Soundness of the shrink loop: any index it records for an event was
either already recorded, or is smaller than the working set's length with
the event consistent and the decision after the corresponding removal
differing from the baseline.  (The working set only ever shrinks from the
tail, so `current.take idx` is exactly the rule set right after the rule
with index `idx` was removed.) -/
theorem shrink_loop_sound (check : List Rule → Nat → Int) (baselines : Nat → Int)
    (consistent : Nat → Bool) :
    ∀ (n : Nat) (current : List Rule), current.length ≤ n →
      ∀ (ms : Nat → Option Nat) (i idx : Nat),
        shrink_loop check baselines consistent current ms i = some idx →
        ms i = some idx ∨
        (idx < current.length ∧ consistent i = true ∧
          check (current.take idx) i ≠ baselines i) := by
  intro n
  induction n with
  | zero =>
      intro current hlen ms i idx h
      have : current = [] := List.length_eq_zero.mp (Nat.le_zero.mp hlen)
      subst this
      left
      simpa [shrink_loop] using h
  | succ n ih =>
      intro current hlen ms i idx h
      cases current with
      | nil =>
          left
          simpa [shrink_loop] using h
      | cons c cs =>
          rw [shrink_loop] at h
          simp only [remove_last_rule] at h
          have htk : (c :: cs).dropLast = (c :: cs).take ((c :: cs).length - 1) :=
            List.dropLast_eq_take _
          have hlt : (c :: cs).length - 1 < (c :: cs).length := by
            simp
          by_cases hstop : (c :: cs).dropLast = ([] : List Rule)
          · rw [if_pos hstop] at h
            by_cases hcond : consistent i = true ∧ ms i = none ∧
                check ((c :: cs).dropLast) i ≠ baselines i
            · rw [if_pos hcond] at h
              right
              have hidx : idx = (c :: cs).length - 1 := (Option.some_inj.mp h).symm
              subst hidx
              exact ⟨hlt, hcond.1, by rw [← htk]; exact hcond.2.2⟩
            · rw [if_neg hcond] at h
              left; exact h
          · rw [if_neg hstop] at h
            have hlen2 : ((c :: cs).dropLast).length ≤ n := by
              simp only [List.length_dropLast, List.length_cons] at *
              omega
            rcases ih _ hlen2 _ i idx h with hms | ⟨h1, h2, h3⟩
            · by_cases hcond : consistent i = true ∧ ms i = none ∧
                  check ((c :: cs).dropLast) i ≠ baselines i
              · rw [if_pos hcond] at hms
                right
                have hidx : idx = (c :: cs).length - 1 := (Option.some_inj.mp hms).symm
                subst hidx
                exact ⟨hlt, hcond.1, by rw [← htk]; exact hcond.2.2⟩
              · rw [if_neg hcond] at hms
                left; exact hms
            · right
              have h1b : idx < (c :: cs).length := by
                simp only [List.length_dropLast] at h1
                omega
              refine ⟨h1b, h2, ?_⟩
              have hkeep : ((c :: cs).dropLast).take idx = (c :: cs).take idx := by
                rw [htk, List.take_take]
                congr 1
                simp only [List.length_dropLast] at h1
                omega
              rw [← hkeep]
              exact h3

/-- In a duplicate-free rule set, `index_for_rule` applied to the rule at
position k returns exactly k. -/
theorem index_for_rule_get_of_nodup :
    ∀ (P : List Rule), P.Nodup → ∀ (k : Nat) (hk : k < P.length),
      index_for_rule P (P.get ⟨k, hk⟩) = some k := by
  intro P
  induction P with
  | nil => intro _ k hk; simp at hk
  | cons r rs ih =>
      intro hnd k hk
      cases k with
      | zero => simp [index_for_rule]
      | succ k =>
          have hk2 : k < rs.length := by simpa using hk
          have hmem : rs.get ⟨k, hk2⟩ ∈ rs := rs.get_mem _ _
          have hr : r ≠ rs.get ⟨k, hk2⟩ := by
            intro hc
            exact (List.nodup_cons.mp hnd).1 (hc ▸ hmem)
          have hget : (r :: rs).get ⟨k + 1, hk⟩ = rs.get ⟨k, hk2⟩ := rfl
          rw [hget]
          simp only [index_for_rule, if_neg hr, ih (List.nodup_cons.mp hnd).2 k hk2]
          rfl

/-- C1: for every duplicate-free rule set P, whenever phase B of the
shrink (the loop of `sandbox_bulk_find_matching_rule` started on P with
all events unmatched) attributes event i to index `idx`, that index lies
inside the original rule set and equals `index_for_rule P r` — the index
the removed rule r = P[idx] occupies in the original input rule set — and
the event was consistent with its removal changing the decision
(`check (P.take idx) i`, the run right after removing r, differs from the
baseline).  No attribution records an index into a shrunk intermediate:
the recorded index is always an original-set index. -/
theorem shrink_attribution_index_in_original
    (P : List Rule) (check : List Rule → Nat → Int) (baselines : Nat → Int)
    (consistent : Nat → Bool) (i idx : Nat)
    (hnd : P.Nodup)
    (h : shrink_loop check baselines consistent P (fun _ => none) i = some idx) :
    ∃ hidx : idx < P.length,
      index_for_rule P (P.get ⟨idx, hidx⟩) = some idx ∧
      consistent i = true ∧
      check (P.take idx) i ≠ baselines i := by
  rcases shrink_loop_sound check baselines consistent P.length P (Nat.le_refl _)
      (fun _ => none) i idx h with hleft | ⟨h1, h2, h3⟩
  · simp at hleft
  · exact ⟨h1, index_for_rule_get_of_nodup P hnd idx h1, h2, h3⟩

/-- Working-set-length oracle: decision is the current profile length
(so removing any rule changes the decision relative to baseline 2). -/
def checkLenOracle : List Rule → Nat → Int := fun current _ => (current.length : Int)

/-- Constant baseline 2 used with `checkLenOracle`. -/
def baselineTwo : Nat → Int := fun _ => 2

/-- Concrete evaluation of the shrink loop on a two-rule set under
`checkLenOracle`: event 0 is attributed at the first removal, receiving
index 1. -/
theorem shrink_loop_concrete_eval :
    shrink_loop checkLenOracle baselineTwo (fun _ => true)
        [ruleDefaultDeny, ruleAllowEtc] (fun _ => none) 0 = some 1 := by
  rw [shrink_loop]
  simp only [remove_last_rule]
  norm_num
  rw [shrink_loop]
  simp [remove_last_rule, checkLenOracle, baselineTwo]

/-- Witness for `shrink_attribution_index_in_original` on a two-rule set:
every event is attributed to index 1, the original index of the last
rule. -/
theorem shrink_attribution_index_in_original_witness :
    ([ruleDefaultDeny, ruleAllowEtc] : List Rule).Nodup ∧
    shrink_loop checkLenOracle baselineTwo (fun _ => true)
        [ruleDefaultDeny, ruleAllowEtc] (fun _ => none) 0 = some 1 ∧
    ∃ hidx : 1 < ([ruleDefaultDeny, ruleAllowEtc] : List Rule).length,
      index_for_rule [ruleDefaultDeny, ruleAllowEtc]
          (([ruleDefaultDeny, ruleAllowEtc] : List Rule).get ⟨1, hidx⟩) = some 1 ∧
      (fun _ => true) 0 = true ∧
      checkLenOracle (([ruleDefaultDeny, ruleAllowEtc] : List Rule).take 1) 0 ≠ baselineTwo 0 :=
  ⟨by decide, shrink_loop_concrete_eval,
   shrink_attribution_index_in_original [ruleDefaultDeny, ruleAllowEtc]
     checkLenOracle baselineTwo (fun _ => true) 0 1 (by decide) shrink_loop_concrete_eval⟩
